import Mathlib

/-!
Shallow embedding of the UpdateInterio client-side checkout flow.

Sources embedded here:
* `src/unnamed/part_000` — `MockAuthService`: a localStorage-backed mock
  authentication store (user list under one key, session pointer under a
  second key).
* `src/unnamed/part_001` — `RazorpayService`: a payment-gateway wrapper with
  a simulated order-creation API, a UPI flow wrapping the gateway's hosted
  modal, a cash-on-delivery path and a stubbed payment-status lookup.
* `src/client/src/components/Payment/StreamlinedRazorpayUPI.tsx` — the
  180-second QR countdown effect.

Modelling conventions:
* localStorage state is modelled as parsed state: the user list is a
  `List StoredUser`, the session pointer an `Option CurrentUserRecord`
  (`none` = key absent).
* Nondeterministic sources (`Date.now()`, `Math.random().toString(36)...`,
  `new Date().toISOString()`) are passed in as explicit parameters
  (`now : Nat`, `rand : String`, `createdAt : String`).  Distinct
  `Date.now()` readings inside one operation are identified; no claim
  relates two timestamps.
* JavaScript `String.prototype.toLowerCase` is modelled by `jsToLower`
  (character-wise ASCII case folding, provably equal to Lean's
  `String.toLower`).
* Fallible operations (`throw new Error(msg)`) return `Except String α`.
* Promise settlement is modelled by `PromiseOutcome`: `resolved` vs
  `rejected`.
-/

/-- Embeds the `StoredUser` interface of `src/unnamed/part_000`. -/
structure StoredUser where
  id : String
  email : String
  password : String
  fullName : String
  mobileNumber : Option String
  avatar : Option String
  createdAt : String
deriving DecidableEq, Repr

/-- Embeds the object literal `userForStorage` built by
`MockAuthService.setCurrentUser`: the projection of a user that is written
under the current-user storage key. -/
structure CurrentUserRecord where
  id : String
  email : String
  name : String
  avatar : Option String
  mobileNumber : Option String
deriving DecidableEq, Repr

/-- The parsed contents of the two browser-storage keys used by
`MockAuthService`: `interoo_users` (the user list) and
`interoo_current_user` (`none` when the key is absent). -/
structure AuthState where
  users : List StoredUser
  currentUser : Option CurrentUserRecord
deriving DecidableEq, Repr

/-- Embeds `String.prototype.toLowerCase` on the ASCII fragment the stored
data uses: lower-cases every character.  (Agrees with Lean's
`String.toLower`; defined elementwise so that it reduces on literals.) -/
def jsToLower (s : String) : String :=
  ⟨s.data.map Char.toLower⟩

namespace MockAuthService

/-- The fixed placeholder avatar URL assigned by `register`. -/
def placeholderAvatar : String :=
  "https://images.pexels.com/photos/1043471/pexels-photo-1043471.jpeg?auto=compress&cs=tinysrgb&w=100"

/-- The projection written by `setCurrentUser` (fields `id`, `email`,
`name := fullName`, `avatar`, `mobileNumber`; no `password`). -/
def userForStorage (u : StoredUser) : CurrentUserRecord :=
  { id := u.id
    email := u.email
    name := u.fullName
    avatar := u.avatar
    mobileNumber := u.mobileNumber }

/-- Embeds `MockAuthService.setCurrentUser`: stores the projection of `u`
under the current-user key. -/
def setCurrentUser (s : AuthState) (u : StoredUser) : AuthState :=
  { s with currentUser := some (userForStorage u) }

/-- The record `newUser` built inside `register`: generated id, lower-cased
email, plaintext password, fixed placeholder avatar. -/
def newUser (email password fullName : String) (mobileNumber : Option String)
    (now : Nat) (rand createdAt : String) : StoredUser :=
  { id := "user_" ++ toString now ++ "_" ++ rand
    email := jsToLower email
    password := password
    fullName := fullName
    mobileNumber := mobileNumber
    avatar := some placeholderAvatar
    createdAt := createdAt }

/-- Embeds `MockAuthService.register`.  `now` stands for `Date.now()`,
`rand` for `Math.random().toString(36).substring(2, 8)` and `createdAt`
for `new Date().toISOString()`. -/
def register (s : AuthState) (email password fullName : String)
    (mobileNumber : Option String) (now : Nat) (rand createdAt : String) :
    Except String (AuthState × StoredUser) :=
  match s.users.find? (fun u => jsToLower u.email == jsToLower email) with
  | some _ => .error "User with this email already exists"
  | none =>
    let nu : StoredUser := newUser email password fullName mobileNumber now rand createdAt
    let s1 : AuthState := { s with users := s.users ++ [nu] }
    .ok (setCurrentUser s1 nu, nu)

/-- Embeds `MockAuthService.login`. -/
def login (s : AuthState) (email password : String) :
    Except String (AuthState × StoredUser) :=
  match s.users.find?
      (fun u => jsToLower u.email == jsToLower email && u.password == password) with
  | none => .error "Invalid email or password"
  | some u => .ok (setCurrentUser s u, u)

/-- Embeds `MockAuthService.getCurrentUser` (on parsed state). -/
def getCurrentUser (s : AuthState) : Option CurrentUserRecord :=
  s.currentUser

/-- Embeds `MockAuthService.logout`: removes the current-user key. -/
def logout (s : AuthState) : AuthState :=
  { s with currentUser := none }

/-- Embeds `MockAuthService.userExists`. -/
def userExists (s : AuthState) (email : String) : Bool :=
  s.users.any (fun u => jsToLower u.email == jsToLower email)

end MockAuthService

/-- Embeds the `RazorpayOrderRequest` interface of `src/unnamed/part_001`.
`notes` is optional (`notes?: Record<string, string>`); a record is an
ordered association list. -/
structure RazorpayOrderRequest where
  amount : Int
  currency : String
  receipt : String
  notes : Option (List (String × String))
deriving DecidableEq, Repr

/-- Embeds the `RazorpayOrderResponse` interface of `src/unnamed/part_001`. -/
structure RazorpayOrderResponse where
  id : String
  entity : String
  amount : Int
  amount_paid : Int
  amount_due : Int
  currency : String
  receipt : String
  status : String
  attempts : Nat
  notes : List (String × String)
  created_at : Nat
deriving DecidableEq, Repr

/-- Embeds the `PaymentResult` interface of `src/unnamed/part_001`. -/
structure PaymentResult where
  success : Bool
  transactionId : String
  razorpayPaymentId : Option String := none
  razorpayOrderId : Option String := none
  razorpaySignature : Option String := none
  paymentMethod : String
  amount : Int
  timestamp : Nat
  errorMessage : Option String := none
deriving DecidableEq, Repr

/-- Embeds the `CustomerInfo` interface of `src/unnamed/part_001`. -/
structure CustomerInfo where
  name : String
  email : String
  contact : String
deriving DecidableEq, Repr

/-- Shape of the mock object returned by
`RazorpayService.getPaymentStatus` (the source types it `any`; the shape is
that of the literal it returns). -/
structure PaymentStatusResponse where
  id : String
  status : String
  amount : Int
  currency : String
  method : String
  captured : Bool
  created_at : Nat
deriving DecidableEq, Repr

/-- Settlement of a JavaScript promise: resolution with a value or
rejection with an error message. -/
inductive PromiseOutcome (α : Type) where
  | resolved (value : α)
  | rejected (msg : String)
deriving DecidableEq, Repr

/-- What the gateway's hosted modal does after `razorpay.open()`:
the completion `handler` fires with payment/order/signature ids, the
`modal.ondismiss` callback fires, or the modal-setup code inside the
`new Promise` executor (`new Razorpay(...)` / `razorpay.open()`) throws. -/
inductive ModalEvent where
  | handlerFired (paymentId orderId signature : String)
  | dismissed
  | setupThrew (msg : String)
deriving DecidableEq, Repr

/-- Environment of one `processUPIPayment` call: whether the external
checkout script load resolves `true`, whether `validateRazorpayConfig()`
passes, and what the gateway modal does. -/
structure UPIEnv where
  scriptLoads : Bool
  configValid : Bool
  modal : ModalEvent
deriving DecidableEq, Repr

namespace RazorpayService

/-- Modelled from the spec: `RAZORPAY_CONFIG.currency` comes from
`../config/razorpay`, which is not part of this snapshot; the static
configuration is display data and every UPI link in the QR component uses
`cu=INR`. -/
def configCurrency : String := "INR"

/-- Embeds `RazorpayService.createOrder`.  `configValid` stands for the
result of `validateRazorpayConfig()` (defined in `../config/razorpay`,
outside this snapshot); `now` for `Date.now()` and `rand` for
`Math.random().toString(36).substring(2, 8)`. -/
def createOrder (req : RazorpayOrderRequest) (configValid : Bool)
    (now : Nat) (rand : String) : Except String RazorpayOrderResponse :=
  if !configValid then
    .error "Razorpay configuration is invalid"
  else
    .ok
      { id := "order_" ++ toString now ++ "_" ++ rand
        entity := "order"
        amount := req.amount * 100
        amount_paid := 0
        amount_due := req.amount * 100
        currency := req.currency
        receipt := req.receipt
        status := "created"
        attempts := 0
        notes := req.notes.getD []
        created_at := now / 1000 }

/-- The failure result built by the `catch` block of `processUPIPayment`. -/
def upiFailureResult (amount : Int) (now : Nat) (msg : String) : PaymentResult :=
  { success := false
    transactionId := "UPI_FAILED_" ++ toString now
    paymentMethod := "UPI"
    amount := amount
    timestamp := now
    errorMessage := some msg }

/-- Embeds `RazorpayService.processUPIPayment`.

Control flow of the source: inside a `try` block it awaits the script
load (throwing when the load resolves `false`), awaits `createOrder`
(which throws when the configuration is invalid), and then returns
`new Promise((resolve, reject) => ...)` whose executor installs the
gateway `handler` (resolving a success result) and `modal.ondismiss`
(resolving a cancellation result) and calls `razorpay.open()`.

Promise semantics made explicit: when the executor itself throws, the
`Promise` constructor turns the exception into a *rejected* promise
without rethrowing, so the surrounding `catch` is not entered; and because
the `try` block does `return p` rather than `return await p`, the async
function adopts the rejected promise as its own outcome.  Hence
`ModalEvent.setupThrew` yields `PromiseOutcome.rejected`, while exceptions
thrown *before* the `new Promise` expression (script-load failure,
order-creation failure) are caught and converted to a resolved failure
result.  `rand` stands for the uppercased random suffix of the success
transaction id. -/
def processUPIPayment (amount : Int) (customerInfo : CustomerInfo)
    (orderId : String) (env : UPIEnv) (now : Nat) (rand : String) :
    PromiseOutcome PaymentResult :=
  if !env.scriptLoads then
    .resolved (upiFailureResult amount now "Failed to load Razorpay payment gateway")
  else
    match createOrder
        { amount := amount
          currency := configCurrency
          receipt := orderId
          notes := some [("payment_method", "upi"),
                         ("customer_name", customerInfo.name)] }
        env.configValid now rand with
    | .error msg => .resolved (upiFailureResult amount now msg)
    | .ok _ =>
      match env.modal with
      | .handlerFired paymentId orderId2 signature =>
        .resolved
          { success := true
            transactionId := "UPI_" ++ toString now ++ "_" ++ rand
            razorpayPaymentId := some paymentId
            razorpayOrderId := some orderId2
            razorpaySignature := some signature
            paymentMethod := "UPI"
            amount := amount
            timestamp := now }
      | .dismissed =>
        .resolved
          { success := false
            transactionId := "UPI_CANCELLED_" ++ toString now
            paymentMethod := "UPI"
            amount := amount
            timestamp := now
            errorMessage := some "Payment cancelled by user" }
      | .setupThrew msg => .rejected msg

/-- Embeds `RazorpayService.processCODPayment`.  `now` stands for
`Date.now()` and `rand` for the uppercased random suffix. -/
def processCODPayment (amount : Int) (customerInfo : CustomerInfo)
    (orderId : String) (now : Nat) (rand : String) : PaymentResult :=
  { success := true
    transactionId := "COD_" ++ toString now ++ "_" ++ rand
    paymentMethod := "Cash on Delivery"
    amount := amount
    timestamp := now }

/-- Embeds `RazorpayService.getPaymentStatus`. -/
def getPaymentStatus (paymentId : String) (now : Nat) : PaymentStatusResponse :=
  { id := paymentId
    status := "captured"
    amount := 100000
    currency := "INR"
    method := "upi"
    captured := true
    created_at := now / 1000 }

end RazorpayService

/-- View-local countdown state of the QR mode of `StreamlinedUPIPayment`
(`StreamlinedRazorpayUPI.tsx`): the `timer` value, the `isExpired` flag and
whether the interval installed by the QR-mode effect is still active. -/
structure TimerState where
  timer : Nat
  isExpired : Bool
  intervalActive : Bool
deriving DecidableEq, Repr

/-- Initial QR-mode countdown state: `useState(180)`, `useState(false)`,
interval just installed. -/
def initTimer : TimerState :=
  { timer := 180, isExpired := false, intervalActive := true }

/-- Embeds one firing of the interval callback
`setTimer(prev => { if (prev <= 1) { clearInterval(interval); setIsExpired(true); return 0; } return prev - 1; })`;
once the interval is cleared the callback no longer fires. -/
def tick (s : TimerState) : TimerState :=
  if s.intervalActive then
    if s.timer ≤ 1 then
      { timer := 0, isExpired := true, intervalActive := false }
    else
      { s with timer := s.timer - 1 }
  else s

/-- A concrete stored user used to instantiate the theorems below. -/
def demoAlice : StoredUser :=
  { id := "user_1_aaaaaa"
    email := "alice@example.com"
    password := "pw1"
    fullName := "Alice"
    mobileNumber := some "123"
    avatar := none
    createdAt := "t0" }

/-- A concrete storage state holding one user. -/
def demoState : AuthState :=
  { users := [demoAlice], currentUser := none }

/-- The record created by registering `Bob@Example.com` in `demoState`
with `now = 5`, `rand = "abcdef"`, `createdAt = "t1"`. -/
def demoBob : StoredUser :=
  { id := "user_5_abcdef"
    email := "bob@example.com"
    password := "pw2"
    fullName := "Bob"
    mobileNumber := none
    avatar := some MockAuthService.placeholderAvatar
    createdAt := "t1" }

/-- The storage state after that registration. -/
def demoState2 : AuthState :=
  { users := [demoAlice, demoBob]
    currentUser := some (MockAuthService.userForStorage demoBob) }

/-- A concrete customer used to instantiate the payment theorems. -/
def demoCustomer : CustomerInfo :=
  { name := "Bob", email := "bob@example.com", contact := "999" }

/-! ## Helper lemmas -/

theorem char_ofNat_toNat_small : ∀ n < 123, 97 ≤ n → (Char.ofNat n).toNat = n := by
  decide

theorem char_toLower_idem (c : Char) : c.toLower.toLower = c.toLower := by
  simp only [Char.toLower]
  by_cases h : c.toNat ≥ 65 ∧ c.toNat ≤ 90
  · rw [if_pos h]
    have h1 : (Char.ofNat (c.toNat + 32)).toNat = c.toNat + 32 :=
      char_ofNat_toNat_small _ (by omega) (by omega)
    rw [if_neg (by rw [h1]; omega)]
  · simp only [if_neg h]

theorem jsToLower_eq_toLower (s : String) : jsToLower s = s.toLower :=
  (String.map_eq Char.toLower s).symm

theorem jsToLower_idem (s : String) : jsToLower (jsToLower s) = jsToLower s := by
  simp only [jsToLower, List.map_map]
  exact congrArg String.mk (List.map_congr_left (fun c _ => char_toLower_idem c))

theorem register_error_of_exists (s : AuthState) (email password fullName : String)
    (mobileNumber : Option String) (now : Nat) (rand createdAt : String)
    (h : ∃ u ∈ s.users, jsToLower u.email = jsToLower email) :
    MockAuthService.register s email password fullName mobileNumber now rand createdAt =
      .error "User with this email already exists" := by
  obtain ⟨u, hu, he⟩ := h
  unfold MockAuthService.register
  split
  · rfl
  · next hf =>
    exact absurd (by simpa using he) (by simpa using List.find?_eq_none.mp hf u hu)

/-! ## Claim theorems -/

/-- C1: `MockAuthService.register` fails with
`"User with this email already exists"` exactly when an already-stored
user's email matches the given email case-insensitively; otherwise it
appends exactly one new record — carrying the generated id and the fixed
placeholder avatar — to the stored list and establishes a session for the
new user.  In particular, a second registration of the same email, in any
letter case, fails. -/
theorem register_email_uniqueness (s : AuthState) (email password fullName : String)
    (mobileNumber : Option String) (now : Nat) (rand createdAt : String) :
    ((∃ u ∈ s.users, jsToLower u.email = jsToLower email) →
      MockAuthService.register s email password fullName mobileNumber now rand createdAt =
        .error "User with this email already exists")
    ∧ ((∀ u ∈ s.users, jsToLower u.email ≠ jsToLower email) →
      ∃ nu s2,
        MockAuthService.register s email password fullName mobileNumber now rand createdAt =
          .ok (s2, nu)
        ∧ nu.id = "user_" ++ toString now ++ "_" ++ rand
        ∧ nu.avatar = some MockAuthService.placeholderAvatar
        ∧ s2.users = s.users ++ [nu]
        ∧ s2.currentUser = some (MockAuthService.userForStorage nu)
        ∧ ∀ email2 password2 fullName2 mobileNumber2 now2 rand2 createdAt2,
            jsToLower email2 = jsToLower email →
            MockAuthService.register s2 email2 password2 fullName2 mobileNumber2
                now2 rand2 createdAt2 =
              .error "User with this email already exists") := by
  constructor
  · exact register_error_of_exists s email password fullName mobileNumber now rand createdAt
  · intro hall
    have hf : s.users.find? (fun u => jsToLower u.email == jsToLower email) = none :=
      List.find?_eq_none.mpr (fun x hx => by simpa using hall x hx)
    refine ⟨MockAuthService.newUser email password fullName mobileNumber now rand createdAt,
      MockAuthService.setCurrentUser
        { s with users := s.users ++
            [MockAuthService.newUser email password fullName mobileNumber now rand createdAt] }
        (MockAuthService.newUser email password fullName mobileNumber now rand createdAt),
      ?_, rfl, rfl, rfl, rfl, ?_⟩
    · unfold MockAuthService.register
      rw [hf]
    · intro email2 password2 fullName2 mobileNumber2 now2 rand2 createdAt2 he2
      refine register_error_of_exists _ _ _ _ _ _ _ _ ⟨_, List.mem_append_right _ (List.mem_singleton.mpr rfl), ?_⟩
      show jsToLower (jsToLower email) = jsToLower email2
      rw [jsToLower_idem, he2]

/-- C1 witness: registering `ALICE@Example.COM` into a store already
holding `alice@example.com` fails with the duplicate-email error. -/
theorem register_email_uniqueness_witness :
    MockAuthService.register demoState "ALICE@Example.COM" "x" "A" none 6 "bbbbbb" "t2" =
      .error "User with this email already exists" :=
  (register_email_uniqueness demoState "ALICE@Example.COM" "x" "A" none 6 "bbbbbb" "t2").1
    ⟨demoAlice, by decide, by decide⟩

/-- C2: `MockAuthService.login` succeeds exactly when some stored record
matches the given email case-insensitively and has a password
character-for-character equal to the given one; any match acted on is a
stored record satisfying both conditions and the session is established
for it; on no match it throws `"Invalid email or password"`. -/
theorem login_exact_match (s : AuthState) (email password : String) :
    ((∃ u ∈ s.users, jsToLower u.email = jsToLower email ∧ u.password = password) ↔
      ∃ p, MockAuthService.login s email password = .ok p)
    ∧ (∀ s2 u, MockAuthService.login s email password = .ok (s2, u) →
        u ∈ s.users ∧ jsToLower u.email = jsToLower email ∧ u.password = password
          ∧ s2 = MockAuthService.setCurrentUser s u)
    ∧ ((∀ u ∈ s.users, ¬(jsToLower u.email = jsToLower email ∧ u.password = password)) →
        MockAuthService.login s email password = .error "Invalid email or password") := by
  refine ⟨⟨?_, ?_⟩, ?_, ?_⟩
  · rintro ⟨u, hu, he, hp⟩
    unfold MockAuthService.login
    split
    · next hf =>
      have := List.find?_eq_none.mp hf u hu
      simp [he, hp] at this
    · exact ⟨_, rfl⟩
  · rintro ⟨p, hp⟩
    unfold MockAuthService.login at hp
    split at hp
    · exact absurd hp (by simp)
    · next w hf =>
      have hpred := List.find?_some hf
      simp only [Bool.and_eq_true, beq_iff_eq] at hpred
      exact ⟨w, List.mem_of_find?_eq_some hf, hpred.1, hpred.2⟩
  · intro s2 u hok
    unfold MockAuthService.login at hok
    split at hok
    · exact absurd hok (by simp)
    · next w hf =>
      have hpred := List.find?_some hf
      simp only [Bool.and_eq_true, beq_iff_eq] at hpred
      obtain ⟨h1, h2⟩ := Prod.mk.injEq .. ▸ (Except.ok.inj hok)
      exact ⟨h2 ▸ List.mem_of_find?_eq_some hf, h2 ▸ hpred.1, h2 ▸ hpred.2, (h2 ▸ h1 : _).symm⟩
  · intro hall
    unfold MockAuthService.login
    split
    · rfl
    · next w hf =>
      have hpred := List.find?_some hf
      simp only [Bool.and_eq_true, beq_iff_eq] at hpred
      exact absurd hpred (by simpa using hall w (List.mem_of_find?_eq_some hf))

/-- C2 witness: logging in as `Alice@Example.Com` with the exact stored
password succeeds and acts on the stored record `demoAlice`. -/
theorem login_exact_match_witness :
    demoAlice ∈ demoState.users ∧ jsToLower demoAlice.email = jsToLower "Alice@Example.Com"
      ∧ demoAlice.password = "pw1"
      ∧ MockAuthService.setCurrentUser demoState demoAlice =
          MockAuthService.setCurrentUser demoState demoAlice :=
  (login_exact_match demoState "Alice@Example.Com" "pw1").2.1
    (MockAuthService.setCurrentUser demoState demoAlice) demoAlice rfl

/-- C3: after a successful `register` or `login` the session pointer holds
exactly the acted-upon user's id, email, name, avatar and phone and
`getCurrentUser` returns it; after `logout` the session key is absent and
`getCurrentUser` returns `none`. -/
theorem session_reflects_user :
    (∀ s email password fullName mobileNumber now rand createdAt s2 nu,
      MockAuthService.register s email password fullName mobileNumber now rand createdAt =
        .ok (s2, nu) →
      MockAuthService.getCurrentUser s2 =
        some { id := nu.id, email := nu.email, name := nu.fullName,
               avatar := nu.avatar, mobileNumber := nu.mobileNumber })
    ∧ (∀ s email password s2 u,
      MockAuthService.login s email password = .ok (s2, u) →
      MockAuthService.getCurrentUser s2 =
        some { id := u.id, email := u.email, name := u.fullName,
               avatar := u.avatar, mobileNumber := u.mobileNumber })
    ∧ (∀ s : AuthState, (MockAuthService.logout s).currentUser = none
        ∧ MockAuthService.getCurrentUser (MockAuthService.logout s) = none) := by
  refine ⟨?_, ?_, fun s => ⟨rfl, rfl⟩⟩
  · intro s email password fullName mobileNumber now rand createdAt s2 nu hok
    unfold MockAuthService.register at hok
    split at hok
    · exact absurd hok (by simp)
    · obtain ⟨h1, h2⟩ := Prod.mk.injEq .. ▸ (Except.ok.inj hok)
      subst h2
      rw [← h1]
      rfl
  · intro s email password s2 u hok
    unfold MockAuthService.login at hok
    split at hok
    · exact absurd hok (by simp)
    · obtain ⟨h1, h2⟩ := Prod.mk.injEq .. ▸ (Except.ok.inj hok)
      subst h2
      rw [← h1]
      rfl

/-- C3 witness: after registering `Bob@Example.com` in `demoState` the
session pointer is exactly Bob's projection. -/
theorem session_reflects_user_witness :
    MockAuthService.getCurrentUser demoState2 =
      some { id := demoBob.id, email := demoBob.email, name := demoBob.fullName,
             avatar := demoBob.avatar, mobileNumber := demoBob.mobileNumber } :=
  session_reflects_user.1 demoState "Bob@Example.com" "pw2" "Bob" none 5 "abcdef" "t1"
    demoState2 demoBob rfl

/-- C4: for every amount, customer and order id, `processCODPayment`
returns a result with `success = true`, a transaction id starting with
`COD_`, payment method `Cash on Delivery`, and the input amount. -/
theorem cod_always_succeeds (amount : Int) (customerInfo : CustomerInfo)
    (orderId : String) (now : Nat) (rand : String) :
    (RazorpayService.processCODPayment amount customerInfo orderId now rand).success = true
    ∧ (∃ rest, (RazorpayService.processCODPayment amount customerInfo orderId now rand).transactionId =
        "COD_" ++ rest)
    ∧ (RazorpayService.processCODPayment amount customerInfo orderId now rand).paymentMethod =
        "Cash on Delivery"
    ∧ (RazorpayService.processCODPayment amount customerInfo orderId now rand).amount = amount := by
  refine ⟨rfl, ⟨toString now ++ "_" ++ rand, ?_⟩, rfl, rfl⟩
  show "COD_" ++ toString now ++ "_" ++ rand = "COD_" ++ (toString now ++ "_" ++ rand)
  simp [String.append_assoc]

/-- C5 counterexample: when the modal-setup code inside the promise
executor throws (for example `razorpay.open()` failing), the promise
returned by `processUPIPayment` is rejected, not resolved — the
surrounding `catch` never sees the executor's exception because the
`Promise` constructor converts it into a rejection and the `try` block
returns the promise without awaiting it. -/
theorem upi_claim_counterexample :
    RazorpayService.processUPIPayment 100 demoCustomer "order1"
        { scriptLoads := true, configValid := true, modal := .setupThrew "boom" } 7 "ABCDEF" =
      .rejected "boom" := rfl

/-- C5 amended: `processUPIPayment` resolves — never rejects — on every
path except one: script-load failure and order-creation failure are caught
and converted into a resolved `success = false` result carrying the
error's message; modal dismissal resolves `success = false` with
`Payment cancelled by user` and a `UPI_CANCELLED_`-prefixed transaction
id; gateway completion resolves `success = true`.  But an exception raised
during modal setup, inside the promise executor, rejects the promise
rather than being converted by the `catch` block. -/
theorem upi_resolution_behavior (amount : Int) (customerInfo : CustomerInfo)
    (orderId : String) (env : UPIEnv) (now : Nat) (rand : String) :
    (env.scriptLoads = false →
      RazorpayService.processUPIPayment amount customerInfo orderId env now rand =
        .resolved (RazorpayService.upiFailureResult amount now
          "Failed to load Razorpay payment gateway"))
    ∧ (env.scriptLoads = true → env.configValid = false →
      RazorpayService.processUPIPayment amount customerInfo orderId env now rand =
        .resolved (RazorpayService.upiFailureResult amount now
          "Razorpay configuration is invalid"))
    ∧ (env.scriptLoads = true → env.configValid = true →
      ((∀ paymentId orderId2 signature,
          env.modal = .handlerFired paymentId orderId2 signature →
          RazorpayService.processUPIPayment amount customerInfo orderId env now rand =
            .resolved
              { success := true
                transactionId := "UPI_" ++ toString now ++ "_" ++ rand
                razorpayPaymentId := some paymentId
                razorpayOrderId := some orderId2
                razorpaySignature := some signature
                paymentMethod := "UPI"
                amount := amount
                timestamp := now })
        ∧ (env.modal = .dismissed →
          RazorpayService.processUPIPayment amount customerInfo orderId env now rand =
            .resolved
              { success := false
                transactionId := "UPI_CANCELLED_" ++ toString now
                paymentMethod := "UPI"
                amount := amount
                timestamp := now
                errorMessage := some "Payment cancelled by user" })
        ∧ (∀ msg, env.modal = .setupThrew msg →
          RazorpayService.processUPIPayment amount customerInfo orderId env now rand =
            .rejected msg))) := by
  obtain ⟨sl, cv, m⟩ := env
  refine ⟨?_, ?_, ?_⟩
  · rintro rfl
    rfl
  · rintro rfl rfl
    rfl
  · rintro rfl rfl
    refine ⟨?_, ?_, ?_⟩
    · rintro paymentId orderId2 signature rfl
      rfl
    · rintro rfl
      rfl
    · rintro msg rfl
      rfl

/-- C5 amended witness: at a concrete dismissal the promise resolves with
the user-cancellation failure result. -/
theorem upi_resolution_behavior_witness :
    RazorpayService.processUPIPayment 100 demoCustomer "order1"
        { scriptLoads := true, configValid := true, modal := .dismissed } 7 "ABCDEF" =
      .resolved
        { success := false
          transactionId := "UPI_CANCELLED_" ++ toString 7
          paymentMethod := "UPI"
          amount := 100
          timestamp := 7
          errorMessage := some "Payment cancelled by user" } :=
  ((upi_resolution_behavior 100 demoCustomer "order1"
      { scriptLoads := true, configValid := true, modal := .dismissed } 7 "ABCDEF").2.2
    rfl rfl).2.1 rfl

theorem tick_running (s : TimerState) (ha : s.intervalActive = true) (ht : 1 < s.timer) :
    tick s = { timer := s.timer - 1, isExpired := s.isExpired,
               intervalActive := s.intervalActive } := by
  simp only [tick, ha, if_true]
  rw [if_neg (by omega)]

theorem tick_last (s : TimerState) (ha : s.intervalActive = true) (ht : s.timer ≤ 1) :
    tick s = { timer := 0, isExpired := true, intervalActive := false } := by
  simp only [tick, ha, if_true]
  rw [if_pos ht]

theorem tick_stopped (s : TimerState) (ha : s.intervalActive = false) : tick s = s := by
  simp [tick, ha]

/-- C6: starting from `timer = 180` in QR mode, the `n`-th tick leaves
`timer = 180 - n` and the countdown running while `n < 180`; from the
180th tick on the state is permanently `timer = 0`, `isExpired = true`
with the interval cleared, so no further decrement occurs. -/
theorem qr_countdown (n : Nat) :
    tick^[n] initTimer =
      if n < 180 then { timer := 180 - n, isExpired := false, intervalActive := true }
      else { timer := 0, isExpired := true, intervalActive := false } := by
  induction n with
  | zero => simp [initTimer]
  | succ n ih =>
    rw [Function.iterate_succ_apply', ih]
    by_cases h : n < 180
    · rw [if_pos h]
      rcases Nat.lt_or_ge n 179 with h2 | h2
      · rw [if_pos (by omega), tick_running _ rfl (show 1 < 180 - n by omega)]
        simp only [TimerState.mk.injEq, and_true]
        omega
      · have h5 : n = 179 := by omega
        subst h5
        rw [if_neg (by omega), tick_last _ rfl (by norm_num)]
    · rw [if_neg h, if_neg (by omega), tick_stopped _ rfl]

/-- C7: for every order request, `createOrder` under a valid configuration
returns a synthetic order whose `amount` and `amount_due` are 100 times
the requested amount (minor currency units), `amount_paid` is 0, `status`
is `created`, currency and receipt echo the request, and whose id is the
locally generated `order_` string rather than a backend-issued one. -/
theorem createOrder_minor_units (req : RazorpayOrderRequest) (now : Nat) (rand : String) :
    ∃ o, RazorpayService.createOrder req true now rand = .ok o
      ∧ o.amount = 100 * req.amount
      ∧ o.amount_due = 100 * req.amount
      ∧ o.amount_paid = 0
      ∧ o.status = "created"
      ∧ o.currency = req.currency
      ∧ o.receipt = req.receipt
      ∧ o.id = "order_" ++ toString now ++ "_" ++ rand :=
  ⟨_, rfl, Int.mul_comm req.amount 100, Int.mul_comm req.amount 100, rfl, rfl, rfl, rfl, rfl⟩

/-- C8: `getPaymentStatus` is a stub: it always reports
`status = "captured"` and `captured = true`, echoes the queried id, and is
otherwise independent of which payment is queried. -/
theorem payment_status_stub (paymentId : String) (now : Nat) :
    (RazorpayService.getPaymentStatus paymentId now).status = "captured"
    ∧ (RazorpayService.getPaymentStatus paymentId now).captured = true
    ∧ (RazorpayService.getPaymentStatus paymentId now).id = paymentId
    ∧ ∀ paymentId2,
        { RazorpayService.getPaymentStatus paymentId now with id := "" } =
          { RazorpayService.getPaymentStatus paymentId2 now with id := "" } :=
  ⟨rfl, rfl, rfl, fun _ => rfl⟩

/-- C9: the record written under the session key is exactly the
projection `{id, email, name, avatar, mobileNumber}` of the user — it has
no password field, and it is unchanged when the user's stored plaintext
password changes; writing it leaves the user list untouched. -/
theorem session_record_excludes_password (u : StoredUser) (s : AuthState) :
    MockAuthService.userForStorage u =
      { id := u.id, email := u.email, name := u.fullName,
        avatar := u.avatar, mobileNumber := u.mobileNumber }
    ∧ (∀ password2,
        MockAuthService.userForStorage { u with password := password2 } =
          MockAuthService.userForStorage u)
    ∧ (MockAuthService.setCurrentUser s u).currentUser =
        some (MockAuthService.userForStorage u)
    ∧ (MockAuthService.setCurrentUser s u).users = s.users :=
  ⟨rfl, fun _ => rfl, rfl, rfl⟩

/-- C10: a successful `register` appends the new record at the end of the
stored list, leaving every previously stored record unchanged and in
order; consequently `userExists` is monotone across a successful
registration. -/
theorem register_preserves_users (s : AuthState) (email password fullName : String)
    (mobileNumber : Option String) (now : Nat) (rand createdAt : String)
    (s2 : AuthState) (nu : StoredUser)
    (h : MockAuthService.register s email password fullName mobileNumber now rand createdAt =
      .ok (s2, nu)) :
    s2.users = s.users ++ [nu]
    ∧ ∀ e, MockAuthService.userExists s e = true → MockAuthService.userExists s2 e = true := by
  unfold MockAuthService.register at h
  split at h
  · exact absurd h (by simp)
  · obtain ⟨h1, h2⟩ := Prod.mk.injEq .. ▸ (Except.ok.inj h)
    subst h2
    rw [← h1]
    refine ⟨rfl, ?_⟩
    intro e he
    simp only [MockAuthService.userExists, List.any_eq_true] at he ⊢
    obtain ⟨x, hx, hpx⟩ := he
    exact ⟨x, List.mem_append_left _ hx, hpx⟩

/-- C10 witness: registering Bob appends his record after Alice's and
`userExists` for Alice's email stays true. -/
theorem register_preserves_users_witness :
    demoState2.users = demoState.users ++ [demoBob]
    ∧ MockAuthService.userExists demoState2 "alice@example.com" = true :=
  ⟨(register_preserves_users demoState "Bob@Example.com" "pw2" "Bob" none 5 "abcdef" "t1"
      demoState2 demoBob rfl).1,
   (register_preserves_users demoState "Bob@Example.com" "pw2" "Bob" none 5 "abcdef" "t1"
      demoState2 demoBob rfl).2 "alice@example.com" (by decide)⟩
